import Mathlib

/-!
Verification of the chain-configuration module of the optics monorepo
(`typescript/optics-deploy/config/mainnets/celo.ts`) against its
natural-language specification.

The source module reads two environment variables (`CELO_RPC`,
`CELO_DEPLOYER_KEY`), throws when the RPC endpoint is falsy (absent or
empty), and otherwise exports a `ChainJson`, the chain descriptor produced
by `toChain`, a `CoreConfig` literal and an empty `BridgeConfig`.

The builders and validators it imports (`toChain` from `../../src/chain`,
the config types from `CoreDeploy` / `BridgeDeploy`) are not part of the
sources available here; where a claim depends on them they are modelled
from the specification, and each such definition carries a doc comment
starting with `Modelled from the spec:`.
-/

namespace Optics

/-- Error kinds of the specification's error taxonomy (spec §7). -/
inductive ConfigError : Type
  | MissingRequiredField (field : String)
  | InvalidAddress (field : String) (value : String)
  | InvalidDuration (field : String) (value : Int)
  | DuplicateWatcher (addr : String)
  | InvalidGasBudget (field : String) (value : Int)
deriving DecidableEq, Repr

/-- The raw environment input surface of `celo.ts`: the two environment
variables the module reads. `none` models an unset variable. -/
structure Env : Type where
  CELO_RPC : Option String
  CELO_DEPLOYER_KEY : Option String
deriving DecidableEq, Repr

/-- The `ChainJson` value built in `celo.ts` lines 13-18: name, rpc,
optional deployer key, numeric domain. -/
structure ChainJson : Type where
  name : String
  rpc : String
  deployerKey : Option String
  domain : Nat
deriving DecidableEq, Repr

/-- A validated chain descriptor (spec §3, `ChainDescriptor`): the output
of the chain builder. -/
structure ChainDescriptor : Type where
  name : String
  domain : Nat
  rpcEndpoint : String
  deployerKey : Option String
deriving DecidableEq, Repr

/-- The `CoreConfig` literal shape assigned in `celo.ts` lines 22-32.
Durations are integers (the spec discusses negative values), gas budgets
naturals, the governor optional (commented out in the source). -/
structure CoreConfig : Type where
  environment : String
  updater : String
  recoveryTimelock : Int
  recoveryManager : String
  optimisticSeconds : Int
  watchers : List String
  governor : Option String
  processGas : Nat
  reserveGas : Nat
deriving DecidableEq, Repr

/-- The opaque bridge extension record (spec §3, `BridgeExtensionConfig`):
a flat key/value record, empty by default (`celo.ts` line 34). -/
abbrev BridgeConfig : Type := List (String × String)

/-- JavaScript falsiness of a nullable string: `!rpc` in `celo.ts` line 9
is true exactly when the variable is unset or the empty string. -/
def falsyStr : Option String → Bool
  | none => true
  | some s => s == ""

/-- Big-endian integer encoding of an ASCII character list: the domain
derivation convention of spec §3 applied to the code points. -/
def asciiBigEndianList (cs : List Char) : Nat :=
  List.foldl (fun acc c => acc * 256 + c.toNat) 0 cs

/-- Big-endian integer encoding of an ASCII tag (spec §3: the `domain` is
the tag interpreted as a big-endian integer). -/
def asciiBigEndian (s : String) : Nat :=
  asciiBigEndianList s.data

/-- Modelled from the spec: the ChainDescriptor builder (`toChain` in
`typescript/optics-deploy/src/chain.ts`, not among the available sources).
Spec §4.1: it fails with `MissingRequiredField` when the RPC endpoint is
null or empty, with no retry and no default substitution, and otherwise
produces the descriptor carrying the given fields unchanged. -/
def mkChainDescriptor (name : String) (rpcEndpoint : Option String)
    (deployerKey : Option String) (domain : Nat) :
    Except ConfigError ChainDescriptor :=
  match rpcEndpoint with
  | none => .error (.MissingRequiredField "rpcEndpoint")
  | some r =>
    if r = "" then .error (.MissingRequiredField "rpcEndpoint")
    else .ok { name := name, domain := domain, rpcEndpoint := r, deployerKey := deployerKey }

/-- Modelled from the spec: `toChain` applied to an already-assembled
`ChainJson` (as `celo.ts` line 20 does) is the §4.1 builder on its
fields. -/
def toChain (cj : ChainJson) : Except ConfigError ChainDescriptor :=
  mkChainDescriptor cj.name (some cj.rpc) cj.deployerKey cj.domain

/-- The concrete `CoreConfig` literal exported by `celo.ts` lines 22-32. -/
def celoConfig : CoreConfig :=
  { environment := "prod"
    updater := "0xDB2091535eb0Ee447Ce170DDC25204FEA822dd81"
    recoveryTimelock := 60 * 60 * 24
    recoveryManager := "0x3D9330014952Bf0A3863FEB7a657bfFA5C9D40B9"
    optimisticSeconds := 60 * 60 * 3
    watchers := ["0xeE42B7757798cf495CDaA8eDb0CC237F07c60C81"]
    governor := none
    processGas := 850000
    reserveGas := 15000 }

/-- The empty bridge record exported by `celo.ts` line 34. -/
def celoBridgeConfig : BridgeConfig := []

/-- The values exported by the `celo.ts` module when it loads
successfully. -/
structure CeloExports : Type where
  chainJson : ChainJson
  chain : ChainDescriptor
  config : CoreConfig
  bridgeConfig : BridgeConfig
deriving DecidableEq

/-- Outcome of evaluating the `celo.ts` module: either a `throw` statement
in the module itself fired (line 10), an error from the imported builder
propagated out of a top-level call, or the module finished and exports its
four values. -/
inductive ModuleResult (α : Type) : Type
  | thrown (msg : String)
  | builderError (e : ConfigError)
  | ok (exports : α)
deriving DecidableEq

/-- Whether module evaluation ended in the module's own `throw`. -/
def ModuleResult.isThrown {α : Type} : ModuleResult α → Bool
  | .thrown _ => true
  | _ => false

/-- The `celo.ts` module body as a function of the environment (lines
8-34): read `CELO_RPC`, throw `Missing RPC URI` when it is falsy, then
build `chainJson`, `chain = toChain(chainJson)`, the `config` literal and
the empty `bridgeConfig`. -/
def celoModule (env : Env) : ModuleResult CeloExports :=
  match env.CELO_RPC with
  | none => .thrown "Missing RPC URI"
  | some r =>
    if r = "" then .thrown "Missing RPC URI"
    else
      let cj : ChainJson :=
        { name := "celo"
          rpc := r
          deployerKey := env.CELO_DEPLOYER_KEY
          domain := 0x63656c6f }
      match toChain cj with
      | .error e => .builderError e
      | .ok chain =>
        .ok { chainJson := cj, chain := chain, config := celoConfig, bridgeConfig := celoBridgeConfig }

/-- Modelled from the spec: well-formedness of an address string (spec
§4.2, `InvalidAddress` in §7). An address is `0x` followed by exactly 40
hexadecimal digits. -/
def isValidAddress (s : String) : Bool :=
  match s.data with
  | '0' :: 'x' :: rest => rest.length == 40 && rest.all isHexDigitChar
  | _ => false
where
  isHexDigitChar (c : Char) : Bool :=
    (('0' ≤ c) && (c ≤ '9')) || (('a' ≤ c) && (c ≤ 'f')) || (('A' ≤ c) && (c ≤ 'F'))

/-- Elements of a list that occur again later in it: the witnesses that a
watcher set contains a repeated address. -/
def dups : List String → List String
  | [] => []
  | x :: xs => (if x ∈ xs then [x] else []) ++ dups xs

/-- Modelled from the spec: the watcher-set checks of the §4.2 validator.
Every entry must be a well-formed address and the set must have no
duplicates; a repeated address yields `DuplicateWatcher` (§7). -/
def watcherErrors (ws : List String) : List ConfigError :=
  (ws.filter (fun w => !isValidAddress w)).map (fun w => .InvalidAddress "watchers" w)
    ++ (dups ws).map .DuplicateWatcher

/-- Modelled from the spec: the duration check of the §4.2 validator. A
negative timelock or delay yields `InvalidDuration` (§7); any value ≥ 0
passes. -/
def durationErrors (field : String) (v : Int) : List ConfigError :=
  if v < 0 then [.InvalidDuration field v] else []

/-- Modelled from the spec: the address check of the §4.2 validator for a
single required address field. -/
def addressErrors (field : String) (a : String) : List ConfigError :=
  if isValidAddress a then [] else [.InvalidAddress field a]

/-- Modelled from the spec: the gas-budget checks of §4.2 (`processGas` >
0 and `reserveGas` ≥ 0 when supplied; a violation is `InvalidGasBudget`,
§7). With natural-number budgets only zero `processGas` can violate. -/
def gasErrors (c : CoreConfig) : List ConfigError :=
  if c.processGas = 0 then [.InvalidGasBudget "processGas" 0] else []

/-- Modelled from the spec: all violations of the §4.2 validation rules,
accumulated over every field so the whole problem list is visible at
once (§7 propagation policy). -/
def coreConfigErrors (c : CoreConfig) : List ConfigError :=
  addressErrors "updater" c.updater
    ++ addressErrors "recoveryManager" c.recoveryManager
    ++ durationErrors "recoveryTimelock" c.recoveryTimelock
    ++ durationErrors "optimisticSeconds" c.optimisticSeconds
    ++ watcherErrors c.watchers
    ++ gasErrors c

/-- Modelled from the spec: the CoreSecurityConfig validator of §4.2. It
returns the validated config, or the full list of violated invariants. -/
def validateCoreConfig (c : CoreConfig) : Except (List ConfigError) CoreConfig :=
  match coreConfigErrors c with
  | [] => .ok c
  | errs => .error errs

/-- Modelled from the spec: the BridgeExtensionConfig builder of §4.3. It
passes bridge-specific configuration through unchanged, with no
validation, defaulting to an empty record. -/
def mkBridgeConfig (input : Option BridgeConfig) : BridgeConfig :=
  input.getD []

/-- Modelled from the spec: whether the bridge module will be deployed
(§3: presence of content implies deployment, absence implies not). -/
def bridgeDeployed (b : BridgeConfig) : Bool :=
  !List.isEmpty b

/-- The composite configuration unit handed to the deployment pipeline
(spec §4.4): a validated chain descriptor, core security config and
bridge extension record. -/
structure Composite : Type where
  chain : ChainDescriptor
  core : CoreConfig
  bridge : BridgeConfig
deriving DecidableEq

/-- The composite with its sensitive `deployerKey` removed (spec §6: the
key is excluded from any serialization path). -/
def stripDeployerKey (c : Composite) : Composite :=
  { c with chain := { c.chain with deployerKey := none } }

/-- A JSON-like value type, the target of composite serialization. -/
inductive JVal : Type
  | str (s : String)
  | num (n : Int)
  | arr (xs : List JVal)
  | obj (fields : List (String × JVal))
  | nul

/-- Reads a string value back out of a serialized field. -/
def asStr : JVal → Option String
  | .str s => some s
  | _ => none

/-- Reads an optional string back out of a serialized field (`nul` stands
for an absent optional). -/
def asOptStr : JVal → Option (Option String)
  | .nul => some none
  | .str s => some (some s)
  | _ => none

/-- Modelled from the spec: serialization of the chain descriptor for the
§8 round-trip, excluding the sensitive `deployerKey` (§6). -/
def serializeChain (c : ChainDescriptor) : JVal :=
  .obj [("name", .str c.name),
        ("domain", .num (Int.ofNat c.domain)),
        ("rpcEndpoint", .str c.rpcEndpoint)]

/-- Modelled from the spec: serialization of the core security config for
the §8 round-trip. -/
def serializeCore (c : CoreConfig) : JVal :=
  .obj [("environment", .str c.environment),
        ("updater", .str c.updater),
        ("recoveryTimelock", .num c.recoveryTimelock),
        ("recoveryManager", .str c.recoveryManager),
        ("optimisticSeconds", .num c.optimisticSeconds),
        ("watchers", .arr (c.watchers.map .str)),
        ("governor", match c.governor with | none => .nul | some g => .str g),
        ("processGas", .num (Int.ofNat c.processGas)),
        ("reserveGas", .num (Int.ofNat c.reserveGas))]

/-- Modelled from the spec: serialization of the opaque bridge record for
the §8 round-trip. -/
def serializeBridge (b : BridgeConfig) : JVal :=
  .obj (b.map (fun p => (p.1, .str p.2)))

/-- Modelled from the spec: serialization of the composite configuration
(§6 output surface; `deployerKey` excluded). -/
def serializeComposite (c : Composite) : JVal :=
  .obj [("chain", serializeChain c.chain),
        ("core", serializeCore c.core),
        ("bridge", serializeBridge c.bridge)]

/-- Modelled from the spec: parser for the canonical serialized chain
descriptor. A reparsed descriptor carries no `deployerKey`, since the key
is never serialized. -/
def parseChain : JVal → Option ChainDescriptor
  | .obj [("name", .str n), ("domain", .num (.ofNat d)), ("rpcEndpoint", .str r)] =>
    some { name := n, domain := d, rpcEndpoint := r, deployerKey := none }
  | _ => none

/-- Reads a list of string values back out of a serialized array. -/
def asStrList : List JVal → Option (List String)
  | [] => some []
  | v :: vs =>
    match asStr v, asStrList vs with
    | some s, some ss => some (s :: ss)
    | _, _ => none

/-- Reads a key/value record with string values back out of serialized
object fields. -/
def asPairList : List (String × JVal) → Option (List (String × String))
  | [] => some []
  | (k, .str v) :: rest =>
    match asPairList rest with
    | some ps => some ((k, v) :: ps)
    | none => none
  | _ => none

/-- Modelled from the spec: parser for the canonical serialized core
security config. -/
def parseCore : JVal → Option CoreConfig
  | .obj [("environment", .str e), ("updater", .str u),
          ("recoveryTimelock", .num rt), ("recoveryManager", .str rm),
          ("optimisticSeconds", .num os), ("watchers", .arr ws),
          ("governor", g), ("processGas", .num (.ofNat pg)),
          ("reserveGas", .num (.ofNat rg))] =>
    match asStrList ws, asOptStr g with
    | some watchers, some gov =>
      some { environment := e, updater := u, recoveryTimelock := rt,
             recoveryManager := rm, optimisticSeconds := os,
             watchers := watchers, governor := gov,
             processGas := pg, reserveGas := rg }
    | _, _ => none
  | _ => none

/-- Modelled from the spec: parser for the serialized opaque bridge
record. -/
def parseBridge : JVal → Option BridgeConfig
  | .obj fs => asPairList fs
  | _ => none

/-- Modelled from the spec: parser for the serialized composite, the
inverse direction of the §8 round-trip. -/
def parseComposite : JVal → Option Composite
  | .obj [("chain", cv), ("core", kv), ("bridge", bv)] =>
    match parseChain cv, parseCore kv, parseBridge bv with
    | some ch, some co, some br => some { chain := ch, core := co, bridge := br }
    | _, _, _ => none
  | _ => none

/-- The environment of the spec §8 concrete scenario: `CELO_RPC` set to
the forno endpoint, `CELO_DEPLOYER_KEY` unset. -/
def celoEnv : Env :=
  { CELO_RPC := some "https://forno.celo.org", CELO_DEPLOYER_KEY := none }

/-- The exports the module produces in the concrete scenario. -/
def celoExports : CeloExports :=
  { chainJson :=
      { name := "celo", rpc := "https://forno.celo.org",
        deployerKey := none, domain := 0x63656c6f }
    chain :=
      { name := "celo", domain := 0x63656c6f,
        rpcEndpoint := "https://forno.celo.org", deployerKey := none }
    config := celoConfig
    bridgeConfig := celoBridgeConfig }

/-- The list of repeated elements is empty exactly on duplicate-free
lists. -/
theorem dups_eq_nil_iff (ws : List String) : dups ws = [] ↔ ws.Nodup := by
  induction ws with
  | nil => simp [dups]
  | cons x xs ih =>
    by_cases hx : x ∈ xs <;> simp [dups, hx, ih, List.nodup_cons]

/-- A nonempty accumulated error list makes the validator fail with
exactly that list. -/
theorem validateCoreConfig_error_of_mem {c : CoreConfig} {e : ConfigError}
    (h : e ∈ coreConfigErrors c) :
    validateCoreConfig c = .error (coreConfigErrors c) := by
  unfold validateCoreConfig
  cases hm : coreConfigErrors c with
  | nil => rw [hm] at h; cases h
  | cons x xs => rfl

/-- Claim C1: when the raw RPC endpoint is null or empty, chain
construction fails with a `MissingRequiredField` error — the error is the
whole result, so there is no retry and no default substitution — and for
every present, non-empty endpoint, construction succeeds on that field,
carrying the endpoint through unchanged. -/
theorem c1_rpc_required (name : String) (rpc deployerKey : Option String) (domain : Nat) :
    ((rpc = none ∨ rpc = some "") →
      mkChainDescriptor name rpc deployerKey domain
        = .error (.MissingRequiredField "rpcEndpoint"))
    ∧ (∀ r : String, rpc = some r → r ≠ "" →
      mkChainDescriptor name rpc deployerKey domain
        = .ok { name := name, domain := domain, rpcEndpoint := r, deployerKey := deployerKey }) := by
  constructor
  · rintro (rfl | rfl) <;> simp [mkChainDescriptor]
  · rintro r rfl hne
    simp [mkChainDescriptor, hne]

/-- Witness for C1 at the concrete celo inputs. -/
theorem c1_rpc_required_witness :
    mkChainDescriptor "celo" none none 0x63656c6f
      = .error (.MissingRequiredField "rpcEndpoint")
    ∧ mkChainDescriptor "celo" (some "https://forno.celo.org") none 0x63656c6f
      = .ok { name := "celo", domain := 0x63656c6f,
              rpcEndpoint := "https://forno.celo.org", deployerKey := none } :=
  ⟨(c1_rpc_required "celo" none none 0x63656c6f).1 (Or.inl rfl),
   (c1_rpc_required "celo" (some "https://forno.celo.org") none 0x63656c6f).2
     "https://forno.celo.org" rfl (by decide)⟩

/-- Claim C2: on the concrete celo input the module produces the composite
whose `domain` is the big-endian integer encoding of ASCII `celo`, namely
`0x63656c6f`, and every field passes validation (the chain builder
succeeds and the core validator reports no violation). -/
theorem c2_celo_concrete :
    celoModule celoEnv = .ok celoExports
    ∧ celoExports.chainJson.domain = asciiBigEndian "celo"
    ∧ celoExports.chain.domain = asciiBigEndian "celo"
    ∧ asciiBigEndian "celo" = 0x63656c6f
    ∧ toChain celoExports.chainJson = .ok celoExports.chain
    ∧ coreConfigErrors celoExports.config = []
    ∧ validateCoreConfig celoExports.config = .ok celoExports.config
    ∧ celoExports.config.recoveryTimelock = 86400
    ∧ celoExports.config.optimisticSeconds = 10800
    ∧ celoExports.config.processGas = 850000
    ∧ celoExports.config.reserveGas = 15000
    ∧ celoExports.config.watchers = ["0xeE42B7757798cf495CDaA8eDb0CC237F07c60C81"] := by
  refine ⟨?_, rfl, rfl, by decide, rfl, by decide, ?_, rfl, rfl, rfl, rfl, rfl⟩
  · rfl
  · unfold validateCoreConfig
    have h : coreConfigErrors celoExports.config = [] := by decide
    rw [h]

/-- Claim C3: a watcher set of two distinct well-formed addresses passes
validation; the set `{a, a}` fails with `DuplicateWatcher a`; and, in
general, every watcher list containing a repeated address produces some
`DuplicateWatcher` error. -/
theorem c3_watcher_dups (a b : String) (ha : isValidAddress a = true)
    (hb : isValidAddress b = true) (hne : a ≠ b) :
    watcherErrors [a, b] = []
    ∧ watcherErrors [a, a] = [.DuplicateWatcher a]
    ∧ ∀ ws : List String, ¬ ws.Nodup →
      ∃ w, ConfigError.DuplicateWatcher w ∈ watcherErrors ws := by
  refine ⟨?_, ?_, ?_⟩
  · simp [watcherErrors, dups, ha, hb, hne]
  · simp [watcherErrors, dups, ha]
  · intro ws hws
    have hne2 : dups ws ≠ [] := fun h => hws ((dups_eq_nil_iff ws).mp h)
    obtain ⟨w, hw⟩ := List.exists_mem_of_ne_nil (dups ws) hne2
    exact ⟨w, List.mem_append_right _ (List.mem_map_of_mem _ hw)⟩

/-- Witness for C3 at the concrete celo watcher and updater addresses. -/
theorem c3_watcher_dups_witness :
    watcherErrors ["0xeE42B7757798cf495CDaA8eDb0CC237F07c60C81",
                   "0xDB2091535eb0Ee447Ce170DDC25204FEA822dd81"] = []
    ∧ watcherErrors ["0xeE42B7757798cf495CDaA8eDb0CC237F07c60C81",
                     "0xeE42B7757798cf495CDaA8eDb0CC237F07c60C81"]
      = [.DuplicateWatcher "0xeE42B7757798cf495CDaA8eDb0CC237F07c60C81"] :=
  have h := c3_watcher_dups "0xeE42B7757798cf495CDaA8eDb0CC237F07c60C81"
    "0xDB2091535eb0Ee447Ce170DDC25204FEA822dd81" (by decide) (by decide) (by decide)
  ⟨h.1, h.2.1⟩

/-- Claim C4: a negative `recoveryTimelock` or `optimisticSeconds` makes
validation fail with an `InvalidDuration` error naming that field, and
every value ≥ 0 passes the duration check. -/
theorem c4_durations (c : CoreConfig) :
    (c.recoveryTimelock < 0 →
      ∃ errs, validateCoreConfig c = .error errs
        ∧ ConfigError.InvalidDuration "recoveryTimelock" c.recoveryTimelock ∈ errs)
    ∧ (c.optimisticSeconds < 0 →
      ∃ errs, validateCoreConfig c = .error errs
        ∧ ConfigError.InvalidDuration "optimisticSeconds" c.optimisticSeconds ∈ errs)
    ∧ (0 ≤ c.recoveryTimelock → durationErrors "recoveryTimelock" c.recoveryTimelock = [])
    ∧ (0 ≤ c.optimisticSeconds → durationErrors "optimisticSeconds" c.optimisticSeconds = []) := by
  refine ⟨?_, ?_, ?_, ?_⟩
  · intro hlt
    have hmem : ConfigError.InvalidDuration "recoveryTimelock" c.recoveryTimelock
        ∈ coreConfigErrors c := by
      simp [coreConfigErrors, durationErrors, hlt]
    exact ⟨coreConfigErrors c, validateCoreConfig_error_of_mem hmem, hmem⟩
  · intro hlt
    have hmem : ConfigError.InvalidDuration "optimisticSeconds" c.optimisticSeconds
        ∈ coreConfigErrors c := by
      simp [coreConfigErrors, durationErrors, hlt]
    exact ⟨coreConfigErrors c, validateCoreConfig_error_of_mem hmem, hmem⟩
  · intro hge
    simp [durationErrors, not_lt.mpr hge]
  · intro hge
    simp [durationErrors, not_lt.mpr hge]

/-- Witness for C4 at the celo config with `recoveryTimelock := -1`. -/
theorem c4_durations_witness :
    (∃ errs, validateCoreConfig { celoConfig with recoveryTimelock := -1 } = .error errs
      ∧ ConfigError.InvalidDuration "recoveryTimelock" (-1) ∈ errs)
    ∧ durationErrors "optimisticSeconds" (10800 : Int) = [] :=
  have h := c4_durations { celoConfig with recoveryTimelock := -1 }
  ⟨h.1 (by decide), h.2.2.2 (by decide)⟩

/-- Claim C5, counterexample: with `CELO_RPC` unset the module surfaces
the missing-endpoint violation as a thrown exception (`throw new Error` in
`celo.ts` line 10), not as a structured failure value, so the claim as
stated — structured, aggregated failure, never a thrown exception — is
false at this input. -/
theorem c5_counterexample :
    celoModule { CELO_RPC := none, CELO_DEPLOYER_KEY := none }
      = .thrown "Missing RPC URI"
    ∧ (celoModule { CELO_RPC := none, CELO_DEPLOYER_KEY := none }).isThrown = true := by
  exact ⟨rfl, rfl⟩

/-- Claim C5, amended: every validation error is detected at construction
(module-load) time and surfaced synchronously, but the missing-RPC
violation is raised as a thrown exception that aborts construction at
that first check — nothing is aggregated into a structured report. The
module throws exactly when `CELO_RPC` is falsy, and otherwise finishes
without throwing. -/
theorem c5_throw_on_first (env : Env) :
    (celoModule env).isThrown = true ↔ falsyStr env.CELO_RPC = true := by
  obtain ⟨rpc, dk⟩ := env
  cases rpc with
  | none => simp [celoModule, falsyStr, ModuleResult.isThrown]
  | some r =>
    by_cases hr : r = ""
    · subst hr
      simp [celoModule, falsyStr, ModuleResult.isThrown]
    · simp [celoModule, falsyStr, hr, toChain, mkChainDescriptor, ModuleResult.isThrown]

/-- Claim C6: composition is all-or-nothing — for every environment the
module either throws (exposing none of its exports) or produces the full
export set, in which the chain builder succeeded, the RPC endpoint is
non-empty, the core config passes the validator, and the bridge record is
the empty default; no partial configuration is ever produced. -/
theorem c6_all_or_nothing (env : Env) :
    (∃ msg, celoModule env = .thrown msg)
    ∨ (∃ exp : CeloExports, celoModule env = .ok exp
      ∧ toChain exp.chainJson = .ok exp.chain
      ∧ exp.chain.rpcEndpoint ≠ ""
      ∧ validateCoreConfig exp.config = .ok exp.config
      ∧ exp.bridgeConfig = celoBridgeConfig) := by
  obtain ⟨rpc, dk⟩ := env
  cases rpc with
  | none => exact Or.inl ⟨"Missing RPC URI", rfl⟩
  | some r =>
    by_cases hr : r = ""
    · subst hr
      exact Or.inl ⟨"Missing RPC URI", rfl⟩
    · refine Or.inr ⟨⟨⟨"celo", r, dk, 0x63656c6f⟩, ⟨"celo", 0x63656c6f, r, dk⟩,
        celoConfig, celoBridgeConfig⟩, ?_, ?_, hr, ?_, rfl⟩
      · simp [celoModule, hr, toChain, mkChainDescriptor]
      · simp [toChain, mkChainDescriptor, hr]
      · unfold validateCoreConfig
        have h : coreConfigErrors celoConfig = [] := by decide
        rw [h]

/-- Claim C7: construction is deterministic — equal environment maps give
identical module results, and equal ASCII tags give identical numeric
domain identifiers. The embedding of the construction as a total function
of the environment also reflects that it performs no effect beyond
possibly reporting the error. -/
theorem c7_deterministic (e1 e2 : Env) (henv : e1 = e2) (t1 t2 : String) (ht : t1 = t2) :
    celoModule e1 = celoModule e2 ∧ asciiBigEndian t1 = asciiBigEndian t2 := by
  subst henv
  subst ht
  exact ⟨rfl, rfl⟩

/-- Witness for C7 at the concrete celo environment and tag. -/
theorem c7_deterministic_witness :
    celoModule celoEnv = celoModule celoEnv
    ∧ asciiBigEndian "celo" = asciiBigEndian "celo" :=
  c7_deterministic celoEnv celoEnv rfl "celo" "celo" rfl

/-- Claim C8: the bridge builder passes configuration through unchanged
with no validation, defaults to the empty record, the empty record is
valid and means the bridge module is not deployed, and presence of
content means it is; the celo module exports the empty record. -/
theorem c8_bridge_passthrough (b : BridgeConfig) (hb : b ≠ []) :
    mkBridgeConfig (some b) = b
    ∧ mkBridgeConfig none = []
    ∧ bridgeDeployed (mkBridgeConfig none) = false
    ∧ bridgeDeployed b = true
    ∧ celoBridgeConfig = []
    ∧ bridgeDeployed celoBridgeConfig = false := by
  refine ⟨rfl, rfl, rfl, ?_, rfl, rfl⟩
  cases b with
  | nil => exact absurd rfl hb
  | cons p rest => rfl

/-- Witness for C8 at a one-entry bridge record. -/
theorem c8_bridge_passthrough_witness :
    mkBridgeConfig (some [("weth", "0x0")]) = [("weth", "0x0")]
    ∧ bridgeDeployed [("weth", "0x0")] = true :=
  have h := c8_bridge_passthrough [("weth", "0x0")] (by decide)
  ⟨h.1, h.2.2.2.1⟩

/-- Mapping strings into `JVal.str` and reading them back is the
identity. -/
theorem asStrList_map_str (xs : List String) :
    asStrList (xs.map JVal.str) = some xs := by
  induction xs with
  | nil => rfl
  | cons x xs ih => simp [asStrList, asStr, ih]

/-- Serializing the values of a key/value record into `JVal.str` and
reading them back is the identity. -/
theorem asPairList_map_str (b : List (String × String)) :
    asPairList (b.map (fun p => (p.1, JVal.str p.2))) = some b := by
  induction b with
  | nil => rfl
  | cons x xs ih =>
    obtain ⟨k, v⟩ := x
    simp [asPairList, ih]

/-- The chain descriptor round-trips through serialization, losing its
`deployerKey`. -/
theorem parseChain_serializeChain (cd : ChainDescriptor) :
    parseChain (serializeChain cd) = some { cd with deployerKey := none } := by
  obtain ⟨n, d, r, k⟩ := cd
  rfl

/-- The core security config round-trips through serialization. -/
theorem parseCore_serializeCore (c : CoreConfig) :
    parseCore (serializeCore c) = some c := by
  obtain ⟨e, u, rt, rm, os, ws, gov, pg, rg⟩ := c
  cases gov with
  | none =>
    simp only [serializeCore, parseCore, asStrList_map_str, asOptStr]
  | some g =>
    simp only [serializeCore, parseCore, asStrList_map_str, asOptStr]

/-- The bridge record round-trips through serialization. -/
theorem parseBridge_serializeBridge (b : BridgeConfig) :
    parseBridge (serializeBridge b) = some b := by
  simp only [serializeBridge, parseBridge, asPairList_map_str]

/-- Claim C9: serializing a composite configuration — which excludes the
sensitive `deployerKey` — and re-parsing it yields the composite equal to
the original on every serialized field (`deployerKey` becomes absent); in
particular, a composite carrying no `deployerKey` round-trips to exactly
itself. -/
theorem c9_roundtrip (c : Composite) :
    parseComposite (serializeComposite c) = some (stripDeployerKey c)
    ∧ (c.chain.deployerKey = none →
      parseComposite (serializeComposite c) = some c) := by
  obtain ⟨⟨n, d, r, k⟩, co, br⟩ := c
  have h1 : parseComposite (serializeComposite ⟨⟨n, d, r, k⟩, co, br⟩)
      = some (stripDeployerKey ⟨⟨n, d, r, k⟩, co, br⟩) := by
    simp only [serializeComposite, parseComposite, parseChain_serializeChain,
      parseCore_serializeCore, parseBridge_serializeBridge, stripDeployerKey]
  refine ⟨h1, ?_⟩
  intro hk
  obtain rfl : k = none := hk
  exact h1

/-- Witness for C9 at the concrete celo composite (no deployer key). -/
theorem c9_roundtrip_witness :
    parseComposite (serializeComposite
      ⟨⟨"celo", 0x63656c6f, "https://forno.celo.org", none⟩, celoConfig, []⟩)
      = some ⟨⟨"celo", 0x63656c6f, "https://forno.celo.org", none⟩, celoConfig, []⟩ :=
  (c9_roundtrip
    ⟨⟨"celo", 0x63656c6f, "https://forno.celo.org", none⟩, celoConfig, []⟩).2 rfl

/-- Claim C10: an unset `CELO_DEPLOYER_KEY` never aborts construction —
with any non-empty RPC endpoint and no key the module succeeds and the
resulting chain values carry an absent `deployerKey` — and the RPC
endpoint is the only raw input whose absence makes the module throw. -/
theorem c10_deployer_key_optional (r : String) (hr : r ≠ "") (env : Env) :
    (∃ exp : CeloExports,
      celoModule { CELO_RPC := some r, CELO_DEPLOYER_KEY := none } = .ok exp
      ∧ exp.chainJson.deployerKey = none
      ∧ exp.chain.deployerKey = none)
    ∧ ((celoModule env).isThrown = true ↔ falsyStr env.CELO_RPC = true) := by
  constructor
  · refine ⟨⟨⟨"celo", r, none, 0x63656c6f⟩, ⟨"celo", 0x63656c6f, r, none⟩,
      celoConfig, celoBridgeConfig⟩, ?_, rfl, rfl⟩
    simp [celoModule, hr, toChain, mkChainDescriptor]
  · obtain ⟨rpc, dk⟩ := env
    cases rpc with
    | none => simp [celoModule, falsyStr, ModuleResult.isThrown]
    | some r2 =>
      by_cases hr2 : r2 = ""
      · subst hr2
        simp [celoModule, falsyStr, ModuleResult.isThrown]
      · simp [celoModule, falsyStr, hr2, toChain, mkChainDescriptor,
          ModuleResult.isThrown]

/-- Witness for C10 at the forno endpoint and the key-less environment. -/
theorem c10_deployer_key_optional_witness :
    (∃ exp : CeloExports,
      celoModule { CELO_RPC := some "https://forno.celo.org", CELO_DEPLOYER_KEY := none }
        = .ok exp
      ∧ exp.chainJson.deployerKey = none
      ∧ exp.chain.deployerKey = none)
    ∧ ((celoModule { CELO_RPC := some "https://forno.celo.org", CELO_DEPLOYER_KEY := none }).isThrown
        = true
      ↔ falsyStr (some "https://forno.celo.org") = true) :=
  c10_deployer_key_optional "https://forno.celo.org" (by decide)
    { CELO_RPC := some "https://forno.celo.org", CELO_DEPLOYER_KEY := none }

end Optics
